import Mathlib

/-!
Verification development for a set of three small Streamlit demo applications:
a RAG (retrieval-augmented generation) question-answering app
(llm-rag-demo/app.py), a financial-data dashboard (cybersyn-financial/app.py)
and a boilerplate example app (example-streamlit-app/app.py).

The Lean definitions below are a shallow embedding of the data model and of
the query/transform logic of those programs.  Remote services (the warehouse
similarity ranking, the presigned-URL generation, the ambient Snowpark
session) are modelled as explicit parameters; strings are modelled as
List Char; machine floats of the warehouse are modelled as rationals;
fallible steps (a pandas row access on an empty frame, a failing session
bootstrap) are modelled with Option.
-/

/-- The single-quote character (codepoint 39).  The RAG app strips this
character from the assembled context, and its prompt templates contain it. -/
def squote : Char := Char.ofNat 39

/-- Embedding of llm-rag-demo/app.py, line 21: num_chunks = 3. -/
def num_chunks : Nat := 3

/-- One row of docs_chunks_table as selected by the similarity query of
create_prompt (columns RELATIVE_PATH and CHUNK; the embedding column
chunk_vec only enters through the similarity parameter of the query). -/
structure DocChunk where
  relative_path : List Char
  chunk : List Char
deriving DecidableEq, Inhabited

/-- Embedding of the similarity query of create_prompt (llm-rag-demo/app.py,
lines 27 to 42): the warehouse ranks all rows of docs_chunks_table by
VECTOR_COSINE_SIMILARITY against the embedded question, descending, and
returns the first num_chunks rows.  The cosine-similarity scoring of the
remote engine is the parameter sim (a function of the question text and the
row); ordering and truncation are modelled locally by a sort and a take. -/
def docs_similarity_query (sim : List Char → DocChunk → Int) (myquestion : List Char)
    (corpus : List DocChunk) (k : Nat) : List DocChunk :=
  (List.insertionSort (fun a b => sim myquestion b ≤ sim myquestion a) corpus).take k

/-- Embedding of llm-rag-demo/app.py, lines 47 to 53: context_length is
len(df_context) - 1, the loop concatenates the CHUNK column of the rows
0 .. context_length - 1, and the accumulated string then has every
single-quote character removed (replace of squote by the empty string). -/
def prompt_context (df_context : List DocChunk) : List Char :=
  (List.flatten ((df_context.take (df_context.length - 1)).map DocChunk.chunk)).filter
    (fun c => c != squote)

/-- Text of the WITH_CONTEXT f-string template (lines 58 to 66) that precedes
the interpolated prompt_context.  The single quote is written squote. -/
def tmpl_ctx_pre : List Char :=
  "\n          ".toList ++ [squote] ++
    ("You are an expert assistance extracting information from context provided. \n           Answer the question based on the context. Be concise and do not hallucinate. \n           If you don´t have the information just say so.\n          Context: ").toList

/-- Text of the WITH_CONTEXT template between the interpolated prompt_context
and the interpolated question. -/
def tmpl_ctx_mid : List Char :=
  "\n          Question:  \n           ".toList

/-- Text of the WITH_CONTEXT template after the interpolated question. -/
def tmpl_ctx_post : List Char :=
  " \n           Answer: ".toList ++ [squote] ++ "\n           ".toList

/-- Text of the QUESTION_ONLY f-string template (lines 73 to 77) before the
interpolated question. -/
def tmpl_q_pre : List Char :=
  "\n         ".toList ++ [squote] ++ "Question:  \n           ".toList

/-- Text of the QUESTION_ONLY template after the interpolated question. -/
def tmpl_q_post : List Char :=
  " \n           Answer: ".toList ++ [squote] ++ "\n           ".toList

/-- The assembled WITH_CONTEXT prompt (rag = 1 branch of create_prompt). -/
def with_context_prompt (ctx myquestion : List Char) : List Char :=
  tmpl_ctx_pre ++ ctx ++ tmpl_ctx_mid ++ myquestion ++ tmpl_ctx_post

/-- The assembled QUESTION_ONLY prompt (else branch of create_prompt). -/
def question_only_prompt (myquestion : List Char) : List Char :=
  tmpl_q_pre ++ myquestion ++ tmpl_q_post

/-- The sentinel value returned for url_link and relative_path in the
QUESTION_ONLY branch: the literal string None. -/
def none_string : List Char := "None".toList

/-- The substring marker used to state the Context properties. -/
def ctx_marker : List Char := "Context:".toList

/-- Default row used only to state rank-1 / rank-2 access in theorems. -/
def default_chunk : DocChunk := ⟨[], []⟩

/-- Embedding of create_prompt (llm-rag-demo/app.py, lines 23 to 81).
With rag = 1 the similarity query is issued with num_chunks, the context is
assembled by prompt_context, and row 0 of the result supplies RELATIVE_PATH;
the pandas access df_context._get_value(0, ...) on an empty result raises,
which is modelled by returning none.  The presigned-URL query of line 68 is
the parameter presign.  Any other rag value takes the else branch, returning
the QUESTION_ONLY prompt and the sentinel None for url_link and
relative_path.  The returned triple is (prompt, url_link, relative_path). -/
def create_prompt (sim : List Char → DocChunk → Int) (presign : List Char → List Char)
    (corpus : List DocChunk) (myquestion : List Char) (rag : Nat) :
    Option (List Char × List Char × List Char) :=
  if rag = 1 then
    match (docs_similarity_query sim myquestion corpus num_chunks)[0]? with
    | some row0 =>
        some (with_context_prompt
                (prompt_context (docs_similarity_query sim myquestion corpus num_chunks))
                myquestion,
              presign row0.relative_path, row0.relative_path)
    | none => none
  else
    some (question_only_prompt myquestion, none_string, none_string)

/-- One row of STOCK_PRICE_TIMESERIES as read by load_data
(cybersyn-financial/app.py): TICKER, DATE, VARIABLE_NAME, VALUE.  Dates are
modelled as integers with the calendar order. -/
structure RawStockRow where
  ticker : String
  date : Int
  variable_name : String
  value : ℚ
deriving DecidableEq

/-- The ticker allow-list of the filter in load_data (line 33). -/
def stock_tickers : List String :=
  ["AAPL", "MSFT", "AMZN", "GOOGL", "META", "TSLA", "NVDA"]

/-- The two variable names kept by the filter in load_data (line 34). -/
def stock_variable_names : List String := ["Nasdaq Volume", "Post-Market Close"]

/-- Embedding of the filter step of load_data (lines 32 to 34). -/
def filtered_stocks (stock_tbl : List RawStockRow) : List RawStockRow :=
  stock_tbl.filter
    (fun r => stock_tickers.contains r.ticker && stock_variable_names.contains r.variable_name)

/-- The distinct (TICKER, DATE) group keys of the groupBy step (line 35). -/
def group_keys (rows : List RawStockRow) : List (String × Int) :=
  (rows.map (fun r => (r.ticker, r.date))).dedup

/-- One fold step of the SQL max aggregate: null-valued accumulator starts,
non-null values combine with max. -/
def omax : Option ℚ → ℚ → Option ℚ
  | none, v => some v
  | some m, v => some (max m v)

/-- Embedding of max(when(VARIABLE_NAME == vname, VALUE)) over one group
(lines 36 to 39): the max over the values of the rows of the group carrying
variable vname, null when no such row exists. -/
def max_when (rows : List RawStockRow) (vname : String) (key : String × Int) : Option ℚ :=
  ((rows.filter
      (fun r => r.ticker == key.1 && r.date == key.2 && r.variable_name == vname)).map
    RawStockRow.value).foldl omax none

/-- One row of the grouped stock frame snow_df_stocks: key columns TICKER and
DATE plus the two pivoted aggregates NASDAQ_VOLUME and POSTMARKET_CLOSE. -/
structure GroupedStockRow where
  ticker : String
  date : Int
  nasdaq_volume : Option ℚ
  postmarket_close : Option ℚ
deriving DecidableEq

/-- Embedding of the groupBy/agg step of load_data (lines 35 to 39). -/
def grouped_stocks (stock_tbl : List RawStockRow) : List GroupedStockRow :=
  (group_keys (filtered_stocks stock_tbl)).map (fun key =>
    ⟨key.1, key.2, max_when (filtered_stocks stock_tbl) "Nasdaq Volume" key,
      max_when (filtered_stocks stock_tbl) "Post-Market Close" key⟩)

/-- The partition of the window specification Window.partitionBy(TICKER)
.orderBy(DATE) (line 43): the rows of one ticker, sorted by date. -/
def ticker_series (g : List GroupedStockRow) (t : String) : List GroupedStockRow :=
  List.insertionSort (fun a b => a.date ≤ b.date) (g.filter (fun r => r.ticker == t))

/-- The POSTMARKET_CLOSE column of one ticker partition, in date order. -/
def close_series (g : List GroupedStockRow) (t : String) : List (Option ℚ) :=
  (ticker_series g t).map GroupedStockRow.postmarket_close

/-- SQL subtraction with null propagation. -/
def sql_sub : Option ℚ → Option ℚ → Option ℚ
  | some a, some b => some (a - b)
  | _, _ => none

/-- SQL division with null propagation. -/
def sql_div : Option ℚ → Option ℚ → Option ℚ
  | some a, some b => some (a / b)
  | _, _ => none

/-- The DAY_OVER_DAY_CHANGE expression of load_data (lines 44 to 47) at one
row: (POSTMARKET_CLOSE - lag(POSTMARKET_CLOSE, 1)) / lag(POSTMARKET_CLOSE, 1)
with c the current close and p the lagged one. -/
def day_change (c p : Option ℚ) : Option ℚ := sql_div (sql_sub c p) p

/-- lag(col, 1) over a window partition: null for the first row, the previous
value of the column for every later row. -/
def lag1 (l : List (Option ℚ)) : List (Option ℚ) := none :: l.dropLast

/-- The DAY_OVER_DAY_CHANGE column of one ticker partition, in date order. -/
def day_over_day_col (g : List GroupedStockRow) (t : String) : List (Option ℚ) :=
  List.zipWith day_change (close_series g t) (lag1 (close_series g t))

/-- One ticker partition of the transformed frame snow_df_stocks_transformed:
each grouped row paired with its DAY_OVER_DAY_CHANGE value. -/
def transformed_series (g : List GroupedStockRow) (t : String) :
    List (GroupedStockRow × Option ℚ) :=
  (ticker_series g t).zip (day_over_day_col g t)

/-- The transformed stock frame: the ticker partitions, one per distinct
ticker of the grouped frame. -/
def stocks_transformed (g : List GroupedStockRow) : List (GroupedStockRow × Option ℚ) :=
  (((g.map GroupedStockRow.ticker).dedup).map (fun t => transformed_series g t)).flatten

/-- One row of FX_RATES_TIMESERIES as read by load_data (lines 50 to 51). -/
structure FxRow where
  base_currency_id : String
  quote_currency_name : String
  variable_name : String
  date : Int
  value : ℚ
deriving DecidableEq

/-- One row of the FX frame after the rename of VARIABLE_NAME to
EXCHANGE_RATE (line 51). -/
structure FxRateRow where
  base_currency_id : String
  quote_currency_name : String
  exchange_rate : String
  date : Int
  value : ℚ
deriving DecidableEq

/-- The date bound of the FX filter, the integer encoding of 2019-01-01. -/
def fx_min_date : Int := 20190101

/-- Embedding of the FX branch of load_data (lines 50 to 51): filter to
BASE_CURRENCY_ID equal to EUR and DATE at least 2019-01-01, then rename
VARIABLE_NAME to EXCHANGE_RATE. -/
def load_fx (fx_tbl : List FxRow) : List FxRateRow :=
  (fx_tbl.filter
      (fun r => r.base_currency_id == "EUR" && decide (fx_min_date ≤ r.date))).map
    (fun r => ⟨r.base_currency_id, r.quote_currency_name, r.variable_name, r.date, r.value⟩)

/-- Embedding of load_data (cybersyn-financial/app.py, lines 27 to 53): the
transformed stock frame and the filtered, renamed FX frame, both computed
from the warehouse tables passed as arguments. -/
def load_data (stock_tbl : List RawStockRow) (fx_tbl : List FxRow) :
    List (GroupedStockRow × Option ℚ) × List FxRateRow :=
  (stocks_transformed (grouped_stocks stock_tbl), load_fx fx_tbl)

/-- The pair of frames returned by load_data. -/
abbrev MarketFrames : Type := List (GroupedStockRow × Option ℚ) × List FxRateRow

/-- Embedding of the st.cache_data memoization of load_data (line 27): the
cache cell is empty before the first call; a call with an empty cell computes
load_data and fills the cell; a call with a filled cell returns the stored
frames unchanged.  The result is (returned frames, cache cell afterwards). -/
def cached_load_data (stock_tbl : List RawStockRow) (fx_tbl : List FxRow)
    (cache : Option MarketFrames) : MarketFrames × Option MarketFrames :=
  match cache with
  | some v => (v, some v)
  | none => (load_data stock_tbl fx_tbl, some (load_data stock_tbl fx_tbl))

/-- Connection parameters of one profile of config.toml, a key-value table. -/
abbrev ConnectionParams : Type := List (String × String)

/-- The configuration file read by the fallback branch of session
acquisition: the default profile name under options, and the table of named
connection profiles. -/
structure ConnConfig where
  default_connection : String
  connections : List (String × ConnectionParams)

/-- A session handle: either the ambient session supplied by the host
runtime, or a session opened from connection parameters. -/
inductive SessionHandle where
  | ambient (id : Nat)
  | created (params : ConnectionParams)
deriving DecidableEq

/-- Embedding of the session bootstrap (lines 7 to 16 of llm-rag-demo/app.py,
identical in the two other apps): get_active_session() is the parameter
active (none when the host supplies no ambient session, which is the caught
exception); on absence the configuration file is read (config_file models
opening ../config.toml, none when that fails), the profile named by
options.default_connection is resolved in connections, and a session is
opened from those parameters.  A failure in the fallback branch itself is not
caught and propagates, modelled by none.  The boolean records whether the
configuration file was opened. -/
def get_session (active : Option SessionHandle) (config_file : Option ConnConfig) :
    Option SessionHandle × Bool :=
  match active with
  | some s => (some s, false)
  | none =>
    match config_file with
    | none => (none, true)
    | some config =>
      match List.lookup config.default_connection config.connections with
      | none => (none, true)
      | some params => (some (SessionHandle.created params), true)

/-- Similarity scoring used by the concrete test fixtures: the chunk length. -/
def w_sim : List Char → DocChunk → Int := fun _ c => Int.ofNat c.chunk.length

/-- Presigned-URL generation used by the concrete test fixtures. -/
def w_presign : List Char → List Char := fun p => "https://sfc/".toList ++ p

/-- A three-chunk document corpus used by the concrete test fixtures. -/
def w_corpus : List DocChunk :=
  [⟨"a.pdf".toList, "alpha".toList⟩,
   ⟨"b.pdf".toList, "be".toList⟩,
   ⟨"c.pdf".toList, "gamma12".toList⟩]

/-- A question used by the concrete test fixtures. -/
def w_question : List Char := "why".toList

/-- A two-observation stock table used by the concrete test fixtures. -/
def w_stocks : List RawStockRow :=
  [⟨"AAPL", 1, "Post-Market Close", 1⟩,
   ⟨"AAPL", 2, "Post-Market Close", 2⟩]

/-- A one-row FX table used by the concrete test fixtures. -/
def w_fx : List FxRow := [⟨"EUR", "United States Dollar", "EUR/USD", 20200101, 1⟩]

/-- The renamed image of the single w_fx row. -/
def w_fx_row : FxRateRow := ⟨"EUR", "United States Dollar", "EUR/USD", 20200101, 1⟩

/-- A configuration fixture whose default profile resolves. -/
def w_config : ConnConfig :=
  ⟨"default", [("default", [("account", "acc"), ("user", "u")])]⟩

/-- A configuration fixture whose default profile is absent. -/
def w_config_bad : ConnConfig := ⟨"default", [("other", [("account", "acc")])]⟩

/-- A contiguous part of a list is a contiguous part of any right extension. -/
theorem infix_extend_right {α : Type} {m a : List α} (b : List α) (h : m <:+: a) :
    m <:+: a ++ b := by
  obtain ⟨s, t, hst⟩ := h
  exact ⟨s, t ++ b, by rw [← hst]; simp [List.append_assoc]⟩

/-- A contiguous part of an appended list lies in the left part, lies in the
right part, or straddles the boundary: it then splits into a nonempty tail
part of the left list followed by a nonempty leading part of the right one. -/
theorem infix_append_split {α : Type} {m a b : List α} (h : m <:+: a ++ b) :
    m <:+: a ∨ m <:+: b ∨
      ∃ m1 m2, m = m1 ++ m2 ∧ m1 ≠ [] ∧ m2 ≠ [] ∧ m1 <:+ a ∧ m2 <+: b := by
  obtain ⟨s, t, hst⟩ := h
  rcases List.append_eq_append_iff.mp hst with ⟨x, hax, htx⟩ | ⟨x, hsm, hbx⟩
  · exact Or.inl ⟨s, x, hax.symm⟩
  · rcases List.append_eq_append_iff.mp hsm with ⟨y, hay, hmyx⟩ | ⟨y, hsy, hxy⟩
    · by_cases hy : y = []
      · subst hy
        exact Or.inr (Or.inl ⟨[], t, by simp [hbx, hmyx]⟩)
      · by_cases hx : x = []
        · subst hx
          exact Or.inl ⟨s, [], by simp [hay, hmyx]⟩
        · exact Or.inr (Or.inr ⟨y, x, hmyx, hy, hx, ⟨s, hay.symm⟩, ⟨t, hbx.symm⟩⟩)
    · refine Or.inr (Or.inl ⟨y, t, ?_⟩)
      rw [hbx, hxy]

/-- The Context marker can only occur inside the interpolated question of the
QUESTION_ONLY template: the fixed template text around it contains no C, and
no occurrence can straddle a boundary because the template part after the
question starts with a space, a character the marker does not contain. -/
theorem question_only_marker_bound (q : List Char)
    (h : ctx_marker <:+: question_only_prompt q) : ctx_marker <:+: q := by
  have hq : question_only_prompt q = (tmpl_q_pre ++ q) ++ tmpl_q_post := by
    simp [question_only_prompt, List.append_assoc]
  rw [hq] at h
  have hCm : 'C' ∈ ctx_marker := by decide
  rcases infix_append_split h with h1 | h1 | ⟨m1, m2, hm, hm1, hm2, hsuf, hpre⟩
  · rcases infix_append_split h1 with h2 | h2 | ⟨m1, m2, hm, hm1, hm2, hsuf, hpre⟩
    · exact absurd (h2.subset hCm) (by decide)
    · exact h2
    · obtain ⟨c, cs, rfl⟩ := List.exists_cons_of_ne_nil hm1
      have hmark : ctx_marker = 'C' :: "ontext:".toList := by decide
      rw [hmark] at hm
      have hc : c = 'C' := by
        have h3 := congrArg List.head? hm
        simp at h3
        exact h3.symm
      subst hc
      exact absurd (hsuf.subset (List.mem_cons_self _ _)) (by decide)
  · exact absurd (h1.subset hCm) (by decide)
  · obtain ⟨c, cs, rfl⟩ := List.exists_cons_of_ne_nil hm2
    obtain ⟨t2, ht2⟩ := hpre
    have hc : c = ' ' := by
      have h3 := congrArg List.head? ht2
      have h4 : tmpl_q_post.head? = some ' ' := by decide
      rw [h4] at h3
      simpa using h3
    subst hc
    have h5 : ' ' ∈ ctx_marker := by
      rw [hm]
      exact List.mem_append.mpr (Or.inr (List.mem_cons_self _ _))
    exact absurd h5 (by decide)

set_option maxRecDepth 8192 in
/-- The WITH_CONTEXT template contains the Context marker in its fixed text,
before the interpolated context. -/
theorem with_context_marker (ctx q : List Char) :
    ctx_marker <:+: with_context_prompt ctx q := by
  have h1 : ctx_marker <:+: tmpl_ctx_pre := by decide
  have h2 := infix_extend_right (ctx ++ (tmpl_ctx_mid ++ (q ++ tmpl_ctx_post))) h1
  have h3 : with_context_prompt ctx q =
      tmpl_ctx_pre ++ (ctx ++ (tmpl_ctx_mid ++ (q ++ tmpl_ctx_post))) := by
    simp [with_context_prompt, List.append_assoc]
  rw [h3]
  exact h2

/-- Claim C2, counterexample: the claim quantifies over every question
string, but the question itself is interpolated unmodified, so a question
that contains the text Context: yields a QUESTION_ONLY prompt that contains
that substring. -/
theorem create_prompt_context_marker_cex :
    create_prompt w_sim w_presign w_corpus ctx_marker 0 =
      some (question_only_prompt ctx_marker, none_string, none_string) ∧
    ctx_marker <:+: question_only_prompt ctx_marker :=
  ⟨rfl, ⟨tmpl_q_pre, tmpl_q_post, rfl⟩⟩

/-- Claim C2 (amended): for every question that does not itself contain the
substring Context:, the prompt assembled in QUESTION_ONLY mode (rag = 0)
does not contain the substring Context:; and whenever WITH_CONTEXT mode
(rag = 1) assembles a prompt, that prompt contains the substring Context:. -/
theorem create_prompt_context_marker (sim : List Char → DocChunk → Int)
    (presign : List Char → List Char) (corpus : List DocChunk)
    (q p u rp : List Char) :
    (create_prompt sim presign corpus q 0 = some (p, u, rp) →
        ¬ ctx_marker <:+: q → ¬ ctx_marker <:+: p) ∧
    (create_prompt sim presign corpus q 1 = some (p, u, rp) →
        ctx_marker <:+: p) := by
  constructor
  · intro h0 hq hp
    have hps : p = question_only_prompt q := by
      simp [create_prompt] at h0
      exact h0.1.symm
    rw [hps] at hp
    exact hq (question_only_marker_bound q hp)
  · intro h1
    simp only [create_prompt, if_pos] at h1
    cases heq : (docs_similarity_query sim q corpus num_chunks)[0]? with
    | none => rw [heq] at h1; simp at h1
    | some row0 =>
      rw [heq] at h1
      simp at h1
      rw [← h1.1]
      exact with_context_marker _ q

set_option maxRecDepth 32768 in
/-- Claim C2, witness: at the concrete fixtures, the QUESTION_ONLY prompt
for a marker-free question has no Context: substring, while the
WITH_CONTEXT prompt always has one. -/
theorem create_prompt_context_marker_witness :
    ¬ ctx_marker <:+: question_only_prompt w_question ∧
    ctx_marker <:+: with_context_prompt
        (prompt_context (docs_similarity_query w_sim w_question w_corpus num_chunks))
        w_question :=
  ⟨(create_prompt_context_marker w_sim w_presign w_corpus w_question
      (question_only_prompt w_question) none_string none_string).1 rfl (by decide),
   (create_prompt_context_marker w_sim w_presign w_corpus w_question
      (with_context_prompt
        (prompt_context (docs_similarity_query w_sim w_question w_corpus num_chunks))
        w_question)
      (w_presign ((docs_similarity_query w_sim w_question w_corpus num_chunks).getD 0
        default_chunk).relative_path)
      (((docs_similarity_query w_sim w_question w_corpus num_chunks).getD 0
        default_chunk).relative_path)).2 (by decide)⟩

/-- Claim C3: in QUESTION_ONLY mode (rag = 0) create_prompt performs no
retrieval and returns the sentinel string None as both url_link and
relative_path, for every question and every corpus. -/
theorem create_prompt_question_only_sentinel (sim : List Char → DocChunk → Int)
    (presign : List Char → List Char) (corpus : List DocChunk) (q : List Char) :
    create_prompt sim presign corpus q 0 =
      some (question_only_prompt q, none_string, none_string) := rfl

/-- Claim C8, counterexample: with an empty corpus the WITH_CONTEXT call does
not return a sentinel result; the row-0 access of the empty query result
fails, modelled by none. -/
theorem create_prompt_empty_corpus_cex :
    create_prompt w_sim w_presign [] "any".toList 1 = none := rfl

/-- Claim C8 (amended): when the corpus is empty the similarity query returns
zero rows and the context accumulated by the truncation loop is empty, but
create_prompt then fails on the row-0 RELATIVE_PATH access of the empty
result (a raised pandas error, modelled by none) instead of returning a
sentinel result. -/
theorem create_prompt_empty_corpus (sim : List Char → DocChunk → Int)
    (presign : List Char → List Char) (q : List Char) :
    create_prompt sim presign [] q 1 = none ∧
    prompt_context (docs_similarity_query sim q [] num_chunks) = [] :=
  ⟨rfl, rfl⟩

/-- Claim C10: the assembled context string never contains a single-quote
character; every occurrence in the retrieved chunk texts is removed before
the context is interpolated into the WITH_CONTEXT template. -/
theorem prompt_context_strips_quotes (df_context : List DocChunk) :
    squote ∉ prompt_context df_context := by
  intro h
  exact absurd ((List.mem_filter.mp h).2) (by simp)

/-- Claim C10, witness: a concrete retrieval result whose top chunk contains
a single quote still yields a quote-free context. -/
theorem prompt_context_strips_quotes_witness :
    squote ∉ prompt_context
      [⟨"a.pdf".toList, "it".toList ++ [squote] ++ "s".toList⟩,
       ⟨"b.pdf".toList, "x".toList⟩] :=
  prompt_context_strips_quotes _

/-- Claim C7: calling the cached load_data twice in the same process with no
intervening state change returns identical frame contents (the stock frame
and the FX frame alike); the second call returns the memoized result of the
first. -/
theorem load_data_memoized (stock_tbl : List RawStockRow) (fx_tbl : List FxRow) :
    (cached_load_data stock_tbl fx_tbl ((cached_load_data stock_tbl fx_tbl none).2)).1 =
      (cached_load_data stock_tbl fx_tbl none).1 := rfl

/-- Claim C9: session acquisition is two-tier.  When the host runtime
supplies an ambient session it is used and the configuration file is not
read; only without one is the configuration file read, the default profile
resolved and a session opened from its parameters.  Failures inside the
fallback branch (missing file, missing profile) are not handled and
propagate. -/
theorem get_session_two_tier :
    (∀ (s : SessionHandle) (config_file : Option ConnConfig),
        get_session (some s) config_file = (some s, false)) ∧
    (∀ (config : ConnConfig) (params : ConnectionParams),
        List.lookup config.default_connection config.connections = some params →
        get_session none (some config) = (some (SessionHandle.created params), true)) ∧
    (get_session none none = (none, true)) ∧
    (∀ config : ConnConfig,
        List.lookup config.default_connection config.connections = none →
        get_session none (some config) = (none, true)) := by
  refine ⟨fun s cf => rfl, fun config params h => ?_, rfl, fun config h => ?_⟩
  · simp [get_session, h]
  · simp [get_session, h]

/-- Claim C9, witness: a configuration whose default profile resolves opens a
created session, and one whose default profile is absent propagates the
failure. -/
theorem get_session_two_tier_witness :
    get_session none (some w_config) =
      (some (SessionHandle.created [("account", "acc"), ("user", "u")]), true) ∧
    get_session none (some w_config_bad) = (none, true) :=
  ⟨get_session_two_tier.2.1 w_config [("account", "acc"), ("user", "u")] rfl,
   get_session_two_tier.2.2.2 w_config_bad rfl⟩

/-- Claim C4: the retrieval result has at most top_k rows and is ordered by
non-increasing similarity, for every requested top_k of at least 1. -/
theorem docs_similarity_query_spec (sim : List Char → DocChunk → Int)
    (myquestion : List Char) (corpus : List DocChunk) (k : Nat) (_hk : 1 ≤ k) :
    (docs_similarity_query sim myquestion corpus k).length ≤ k ∧
    List.Sorted (fun a b => sim myquestion b ≤ sim myquestion a)
      (docs_similarity_query sim myquestion corpus k) := by
  constructor
  · exact List.length_take_le k (List.insertionSort
      (fun a b => sim myquestion b ≤ sim myquestion a) corpus)
  · haveI : IsTotal DocChunk (fun a b => sim myquestion b ≤ sim myquestion a) :=
      ⟨fun a b => le_total (sim myquestion b) (sim myquestion a)⟩
    haveI : IsTrans DocChunk (fun a b => sim myquestion b ≤ sim myquestion a) :=
      ⟨fun a b c h1 h2 => le_trans h2 h1⟩
    exact List.Pairwise.sublist (List.take_sublist k _)
      (List.sorted_insertionSort _ corpus)

/-- Claim C4, witness: the three-chunk fixture corpus retrieved with
top_k = 3 satisfies both bounds. -/
theorem docs_similarity_query_spec_witness :
    (docs_similarity_query w_sim w_question w_corpus 3).length ≤ 3 ∧
    List.Sorted (fun a b => w_sim w_question b ≤ w_sim w_question a)
      (docs_similarity_query w_sim w_question w_corpus 3) :=
  docs_similarity_query_spec w_sim w_question w_corpus 3 (by decide)

/-- Claim C1: with top_k = num_chunks = 3 and a corpus of at least 3 chunks,
the WITH_CONTEXT call assembles its context from exactly the two top-ranked
retrieved chunks, concatenated in rank order with single quotes stripped
(the third, lowest-ranked retrieved row is discarded by the
context_length = len - 1 truncation), and returns the relative path of the
rank-1 chunk. -/
theorem create_prompt_top2 (sim : List Char → DocChunk → Int)
    (presign : List Char → List Char) (corpus : List DocChunk) (q : List Char)
    (h3 : 3 ≤ corpus.length) :
    create_prompt sim presign corpus q 1 =
      some (with_context_prompt
              ((((docs_similarity_query sim q corpus num_chunks).getD 0 default_chunk).chunk ++
                ((docs_similarity_query sim q corpus num_chunks).getD 1 default_chunk).chunk).filter
                (fun c => c != squote))
              q,
            presign ((docs_similarity_query sim q corpus num_chunks).getD 0
              default_chunk).relative_path,
            ((docs_similarity_query sim q corpus num_chunks).getD 0
              default_chunk).relative_path) := by
  have hlen : (docs_similarity_query sim q corpus num_chunks).length = 3 := by
    simp only [docs_similarity_query, num_chunks, List.length_take,
      List.length_insertionSort]
    omega
  obtain ⟨r0, r1, r2, hr⟩ := List.length_eq_three.mp hlen
  simp [create_prompt, hr, prompt_context, List.getD]

/-- Claim C1, witness: the three-chunk fixture corpus with top_k = 3. -/
theorem create_prompt_top2_witness :
    3 ≤ w_corpus.length ∧
    create_prompt w_sim w_presign w_corpus w_question 1 =
      some (with_context_prompt
              ((((docs_similarity_query w_sim w_question w_corpus num_chunks).getD 0
                  default_chunk).chunk ++
                ((docs_similarity_query w_sim w_question w_corpus num_chunks).getD 1
                  default_chunk).chunk).filter
                (fun c => c != squote))
              w_question,
            w_presign ((docs_similarity_query w_sim w_question w_corpus num_chunks).getD 0
              default_chunk).relative_path,
            ((docs_similarity_query w_sim w_question w_corpus num_chunks).getD 0
              default_chunk).relative_path) :=
  ⟨by decide, create_prompt_top2 w_sim w_presign w_corpus w_question (by decide)⟩

/-- The day-over-day expression is null whenever the lagged close is null. -/
theorem day_change_none (c : Option ℚ) : day_change c none = none := by
  cases c <;> rfl

/-- Unfolding step of the lagged zip: the head row pairs with the incoming
previous value, the tail rows pair with their own predecessors. -/
theorem zipWith_lag_cons (prev a : Option ℚ) (t : List (Option ℚ)) :
    List.zipWith day_change (a :: t) (prev :: (a :: t).dropLast) =
      day_change a prev :: List.zipWith day_change t (a :: t.dropLast) := by
  cases t <;> rfl

/-- Index form of the lagged zip: at every position after the first, the
value is the day-over-day expression of the close at that position and the
close one position earlier. -/
theorem zipWith_lag_getElem :
    ∀ (c : List (Option ℚ)) (prev : Option ℚ) (i : Nat), i + 1 < c.length →
      (List.zipWith day_change c (prev :: c.dropLast))[i + 1]? =
        some (day_change (c.getD (i + 1) none) (c.getD i none))
  | [], _, i, h => by simp at h
  | a :: t, prev, 0, h => by
      cases t with
      | nil => simp at h
      | cons b t2 =>
        rw [zipWith_lag_cons, List.getElem?_cons_succ, zipWith_lag_cons]
        simp
  | a :: t, prev, i + 1, h => by
      rw [zipWith_lag_cons, List.getElem?_cons_succ]
      have h2 : i + 1 < t.length := by
        simp at h
        omega
      rw [zipWith_lag_getElem t a i h2]
      simp

/-- Claim C5: within every ticker partition of the transformed stock frame
produced by load_data (partition by TICKER, ordered by DATE),
DAY_OVER_DAY_CHANGE is null at the first observation, and at every later
observation it equals
(POSTMARKET_CLOSE at that date minus POSTMARKET_CLOSE at the previous date)
divided by POSTMARKET_CLOSE at the previous date, in the null-propagating
warehouse arithmetic. -/
theorem day_over_day_change_spec (stock_tbl : List RawStockRow) (t : String)
    (h2 : 2 ≤ (ticker_series (grouped_stocks stock_tbl) t).length) :
    (day_over_day_col (grouped_stocks stock_tbl) t)[0]? = some none ∧
    ∀ i : Nat, i + 1 < (ticker_series (grouped_stocks stock_tbl) t).length →
      (day_over_day_col (grouped_stocks stock_tbl) t)[i + 1]? =
        some (day_change
          ((close_series (grouped_stocks stock_tbl) t).getD (i + 1) none)
          ((close_series (grouped_stocks stock_tbl) t).getD i none)) := by
  have hlen : (close_series (grouped_stocks stock_tbl) t).length =
      (ticker_series (grouped_stocks stock_tbl) t).length := by
    simp [close_series]
  constructor
  · have hne : close_series (grouped_stocks stock_tbl) t ≠ [] := by
      intro hnil
      rw [hnil] at hlen
      simp at hlen
      omega
    obtain ⟨a, tl, heq⟩ := List.exists_cons_of_ne_nil hne
    unfold day_over_day_col lag1
    rw [heq, zipWith_lag_cons]
    simp [day_change_none]
  · intro i hi
    unfold day_over_day_col lag1
    exact zipWith_lag_getElem _ none i (by omega)

/-- Claim C5, witness: a two-observation AAPL fixture; the change is null at
the first date and the lag expression at the second. -/
theorem day_over_day_change_spec_witness :
    (day_over_day_col (grouped_stocks w_stocks) "AAPL")[0]? = some none ∧
    (day_over_day_col (grouped_stocks w_stocks) "AAPL")[1]? =
      some (day_change
        ((close_series (grouped_stocks w_stocks) "AAPL").getD 1 none)
        ((close_series (grouped_stocks w_stocks) "AAPL").getD 0 none)) :=
  ⟨(day_over_day_change_spec w_stocks "AAPL" (by decide)).1,
   (day_over_day_change_spec w_stocks "AAPL" (by decide)).2 0 (by decide)⟩

/-- Claim C6: every record of the FX frame returned by load_data has base
currency EUR and date at least 2019-01-01. -/
theorem load_fx_bounds (stock_tbl : List RawStockRow) (fx_tbl : List FxRow)
    (r : FxRateRow) (h : r ∈ (load_data stock_tbl fx_tbl).2) :
    r.base_currency_id = "EUR" ∧ fx_min_date ≤ r.date := by
  simp [load_data, load_fx] at h
  obtain ⟨r0, ⟨hmem, hbase, hdate⟩, hmap⟩ := h
  rw [← hmap]
  exact ⟨hbase, hdate⟩

/-- Claim C6, witness: the single fixture FX row is returned and satisfies
both bounds. -/
theorem load_fx_bounds_witness :
    w_fx_row ∈ (load_data [] w_fx).2 ∧
    (w_fx_row.base_currency_id = "EUR" ∧ fx_min_date ≤ w_fx_row.date) :=
  ⟨by decide, load_fx_bounds [] w_fx w_fx_row (by decide)⟩
